import Mathlib

/-!
Shallow embedding of the client-side session and request layer of
`src/frontend_ui/src/App.js` (token store, API client, auth session,
route guard), together with theorems settling the specification's
claims about it.

Modelling conventions:
* JSON payloads are `JsValue` (numbers as integers; no claim involves
  numeric payloads).  `Option JsValue` models possibly-`undefined`
  property access.
* Browser `localStorage` is the single cell for the `auth_token` key;
  `StorageEnv = Option Storage`, where `none` models a missing or
  unavailable storage API.  Accessing a missing API throws (platform
  semantics); the source contains no guard around its accesses.
* `fetch` is an oracle `BuiltRequest → FetchResult` supplied by the
  environment; one call per request (the code performs exactly one).
* Thrown JavaScript errors are `Except.error` carrying `JsError`; the
  error object built at App.js line 56 (with `status` and `data`
  attached) is `JsError.httpError`.
-/

namespace VividApp

/-- JSON-like values as observed by the client code: `null`, booleans,
numbers, strings, arrays and objects. -/
inductive JsValue where
  | jnull
  | jbool (b : Bool)
  | jnum (n : Int)
  | jstr (s : String)
  | jarr (elems : List JsValue)
  | jobj (fields : List (String × JsValue))

/-- JavaScript truthiness of a JSON value: `null`, `false`, `0` and the
empty string are falsy; every array and object is truthy. -/
def JsValue.truthy : JsValue → Bool
  | .jnull => false
  | .jbool b => b
  | .jnum n => n != 0
  | .jstr s => !s.isEmpty
  | .jarr _ => true
  | .jobj _ => true

/-- Property access `v.name`: a field of an object, `undefined` (here
`none`) otherwise. -/
def JsValue.getField : JsValue → String → Option JsValue
  | .jobj fields, name => fields.lookup name
  | _, _ => none

mutual

/-- JavaScript string coercion `String(v)` of a JSON value (as used by
the `Error` constructor at App.js line 56 and by `localStorage.setItem`). -/
def JsValue.toStr : JsValue → String
  | .jnull => "null"
  | .jbool b => if b then "true" else "false"
  | .jnum n => toString n
  | .jstr s => s
  | .jarr es => JsValue.listToStr es
  | .jobj _ => "[object Object]"

/-- Array string coercion: comma-joined coercions of the elements. -/
def JsValue.listToStr : List JsValue → String
  | [] => ""
  | [v] => v.toStr
  | v :: rest => v.toStr ++ "," ++ JsValue.listToStr rest

end

/-- Truthiness of a possibly-`undefined` value (`undefined` is falsy). -/
def jsTruthyOpt : Option JsValue → Bool
  | none => false
  | some v => v.truthy

/-- Truthiness of a string-or-`null` value: `null` and `""` are falsy. -/
def jsTruthyStr : Option String → Bool
  | none => false
  | some s => !s.isEmpty

/-- The browser-local storage area, restricted to the one key the code
uses (`TOKEN_KEY = 'auth_token'`, App.js line 8). -/
structure Storage where
  token : Option String

/-- The storage environment: `none` models a missing/unavailable
`localStorage` API (any access then throws). -/
abbrev StorageEnv := Option Storage

/-- Thrown errors: a missing storage API, a rejected `fetch`, a rejected
`res.json()`, and the error object thrown at App.js lines 56-59 carrying
the response status, the parsed data and a message. -/
inductive JsError where
  | storageUnavailable
  | networkError
  | jsonParseError
  | httpError (status : Nat) (data : JsValue) (message : String)

/-- `getToken` (App.js lines 11-14): `localStorage.getItem(TOKEN_KEY)`.
Returns the stored string or `null`; throws if the storage API is
unavailable (the source has no guard). -/
def getToken : StorageEnv → Except JsError (Option String)
  | none => .error .storageUnavailable
  | some s => .ok s.token

/-- `setToken` (App.js lines 17-20): `localStorage.setItem(TOKEN_KEY, token)`,
fully replacing any prior value. -/
def setToken (token : String) : StorageEnv → Except JsError StorageEnv
  | none => .error .storageUnavailable
  | some s => .ok (some { s with token := some token })

/-- `clearToken` (App.js lines 23-26): `localStorage.removeItem(TOKEN_KEY)`. -/
def clearToken : StorageEnv → Except JsError StorageEnv
  | none => .error .storageUnavailable
  | some s => .ok (some { s with token := none })

/-- ASCII lower-casing of one character. -/
def charLower (c : Char) : Char :=
  if c.toNat ≥ 65 ∧ c.toNat ≤ 90 then Char.ofNat (c.toNat + 32) else c

/-- Header names compare case-insensitively (the `Headers` class). -/
def lowerName (s : String) : String := String.mk (s.data.map charLower)

/-- `Headers.set`: case-insensitive replacement of a header.  The order
of headers is unobservable in this model, so replacement is modelled as
remove-then-append. -/
def setHeader (hs : List (String × String)) (name value : String) :
    List (String × String) :=
  hs.filter (fun p => lowerName p.1 != lowerName name) ++ [(name, value)]

/-- `Headers.get`: the value of a header, case-insensitively. -/
def getHeader (hs : List (String × String)) (name : String) : Option String :=
  (hs.find? (fun p => lowerName p.1 == lowerName name)).map (fun p => p.2)

/-- The caller-supplied `options` object of `apiRequest` (the spec's
RequestDescriptor, minus the path). -/
structure RequestOptions where
  headers : List (String × String) := []
  method : Option String := none
  body : Option String := none

/-- The request actually issued by `fetch` at App.js lines 44-47. -/
structure BuiltRequest where
  url : String
  headers : List (String × String)
  method : Option String
  body : Option String

/-- An HTTP response as the code observes it: status, the
`content-type` header (`none` when absent), the body as text, and the
outcome of parsing the body as JSON (`res.json()`: parsed value, or a
thrown parse error). -/
structure HttpResponse where
  status : Nat
  contentType : Option String
  bodyText : String
  bodyJson : Except Unit JsValue

/-- The result of the single `fetch` call: rejection (no connectivity)
or a response. -/
inductive FetchResult where
  | networkError
  | response (r : HttpResponse)

/-- `res.ok`: status in the inclusive range 200-299. -/
def responseOk (r : HttpResponse) : Bool :=
  decide (200 ≤ r.status ∧ r.status < 300)

/-- `process.env.REACT_APP_API_BASE_URL || ''` (App.js line 37). -/
def apiBase (cfg : Option String) : String :=
  match cfg with
  | some s => if s.isEmpty then "" else s
  | none => ""

/-- Chars `needle` lead `haystack` (element-wise match at the front). -/
def leadMatch : List Char → List Char → Bool
  | [], _ => true
  | _ :: _, [] => false
  | a :: as, b :: bs => a == b && leadMatch as bs

/-- `needle` occurs contiguously inside `haystack`. -/
def containsChars (needle haystack : List Char) : Bool :=
  match haystack with
  | [] => needle.isEmpty
  | _ :: t => leadMatch needle haystack || containsChars needle t

/-- `String.prototype.includes` (App.js line 50). -/
def strIncludes (haystack needle : String) : Bool :=
  containsChars needle.data haystack.data

/-- App.js lines 40-43: start from `options.headers`, always set
`Content-Type: application/json`, and set `Authorization: Bearer <token>`
only when the token read from storage is truthy (non-null, non-empty). -/
def buildRequest (base path : String) (opts : RequestOptions)
    (token : Option String) : BuiltRequest :=
  let hs := setHeader opts.headers "Content-Type" "application/json"
  let hs :=
    if jsTruthyStr token then
      setHeader hs "Authorization" ("Bearer " ++ token.getD "")
    else hs
  { url := base ++ path, headers := hs, method := opts.method, body := opts.body }

/-- App.js lines 48-54: if the declared content type includes
`application/json`, the body is parsed as JSON (a parse failure is a
thrown error); otherwise the body is taken as opaque text. -/
def responseData (r : HttpResponse) : Except JsError JsValue :=
  if strIncludes (r.contentType.getD "") "application/json" then
    match r.bodyJson with
    | .ok v => .ok v
    | .error _ => .error .jsonParseError
  else
    .ok (.jstr r.bodyText)

/-- App.js line 56: `(data && data.message) || 'Request failed <status>'`.
The payload's `message` field is used only when the payload itself and
that field are truthy; otherwise the generic string. -/
def failureMessage (data : JsValue) (status : Nat) : String :=
  match (if data.truthy then data.getField "message" else none) with
  | some m => if m.truthy then m.toStr else "Request failed " ++ toString status
  | none => "Request failed " ++ toString status

/-- App.js lines 48-61: parse the body, then either throw the error
object (non-ok status) or return the parsed data. -/
def processResponse (r : HttpResponse) : Except JsError JsValue :=
  match responseData r with
  | .error e => .error e
  | .ok data =>
    if responseOk r then .ok data
    else .error (.httpError r.status data (failureMessage data r.status))

/-- The request `apiRequest` hands to `fetch` (App.js lines 37-47):
`none` when reading the token already threw. -/
def apiRequestBuilt (cfg : Option String) (path : String)
    (opts : RequestOptions) (env : StorageEnv) : Option BuiltRequest :=
  match getToken env with
  | .error _ => none
  | .ok token => some (buildRequest (apiBase cfg) path opts token)

/-- `apiRequest` (App.js lines 32-62), with the storage environment
threaded explicitly.  The pair's second component is the storage state
when the call completes (normally or by a thrown error). -/
def apiRequest (cfg : Option String) (path : String) (opts : RequestOptions)
    (fetch : BuiltRequest → FetchResult) (env : StorageEnv) :
    Except JsError JsValue × StorageEnv :=
  match apiRequestBuilt cfg path opts env with
  | none => (.error .storageUnavailable, env)
  | some req =>
    match fetch req with
    | .networkError => (.error .networkError, env)
    | .response r => (processResponse r, env)

/-- The Authorization header of the request `apiRequest` builds. -/
def builtAuthHeader (cfg : Option String) (path : String)
    (opts : RequestOptions) (env : StorageEnv) : Option (Option String) :=
  (apiRequestBuilt cfg path opts env).map
    (fun req => getHeader req.headers "Authorization")

/-- `JSON.stringify` escaping for the string bodies built here. -/
def jsonEscape (s : String) : String :=
  String.mk (s.data.flatMap
    (fun c =>
      if c == '"' then ['\\', '"']
      else if c == '\\' then ['\\', '\\']
      else [c]))

/-- `JSON.stringify({ email, password })`, the login request body. -/
def stringifyLoginBody (email password : String) : String :=
  "\x7b\"email\":\"" ++ jsonEscape email ++ "\",\"password\":\"" ++
    jsonEscape password ++ "\"\x7d"

/-- The `options` object of the login request (App.js line 258). -/
def loginOptions (email password : String) : RequestOptions :=
  { headers := [], method := some "POST",
    body := some (stringifyLoginBody email password) }

/-- `useAuth.login` (App.js lines 256-265): awaits `apiRequest` (any
thrown error propagates to the caller); on a returned payload, persists
`data.token` and returns `true` when `data && data.token` is truthy,
otherwise returns `false` without touching the store. -/
def login (cfg : Option String) (email password : String)
    (fetch : BuiltRequest → FetchResult) (env : StorageEnv) :
    Except JsError Bool × StorageEnv :=
  match apiRequest cfg "/auth/login" (loginOptions email password) fetch env with
  | (.error e, env2) => (.error e, env2)
  | (.ok data, env2) =>
    let tokenField := if data.truthy then data.getField "token" else none
    if jsTruthyOpt tokenField then
      match setToken (JsValue.toStr (tokenField.getD .jnull)) env2 with
      | .ok env3 => (.ok true, env3)
      | .error e => (.error e, env2)
    else (.ok false, env2)

/-- What the route guard renders: the children unchanged, or a
`Navigate` element (target, `replace` flag, and the recorded
`state.from` pathname). -/
inductive GuardResult where
  | render
  | redirect (target : String) (replaceFlag : Bool) (fromPath : String)

/-- `RequireAuth` (App.js lines 273-280): reads the token and either
renders the children or redirects to `/login`, recording the current
location. -/
def RequireAuth (env : StorageEnv) (pathname : String) :
    Except JsError GuardResult :=
  match getToken env with
  | .error e => .error e
  | .ok token =>
    if jsTruthyStr token then .ok .render
    else .ok (.redirect "/login" true pathname)

/-- App.js line 286: `location.state?.from?.pathname || '/admin'`. -/
def loginRedirectFrom (fromState : Option String) : String :=
  match fromState with
  | some p => if p.isEmpty then "/admin" else p
  | none => "/admin"

/-- The user-visible outcome of one login form submission. -/
inductive LoginUiOutcome where
  | navigate (target : String)
  | invalidCredentials
  | loginFailed

/-- `LoginPage.onSubmit` (App.js lines 292-307): `true` navigates to the
recorded origin (else `/admin`); `false` shows `Invalid credentials`; a
thrown error is caught and shows `Login failed`. -/
def loginPageOnSubmit (cfg : Option String) (email password : String)
    (fetch : BuiltRequest → FetchResult) (env : StorageEnv)
    (fromState : Option String) : LoginUiOutcome × StorageEnv :=
  match login cfg email password fetch env with
  | (.ok true, env2) => (.navigate (loginRedirectFrom fromState), env2)
  | (.ok false, env2) => (.invalidCredentials, env2)
  | (.error _, env2) => (.loginFailed, env2)

/-- A `fetch` oracle that returns the same response for every request. -/
def constFetch (r : HttpResponse) : BuiltRequest → FetchResult :=
  fun _ => .response r

/-- A JSON response with the given status and parsed body. -/
def jsonResponse (status : Nat) (v : JsValue) : HttpResponse :=
  { status := status, contentType := some "application/json",
    bodyText := "", bodyJson := .ok v }

/-- A plain-text response (the code never calls `res.json()` on it, so
its `bodyJson` component is irrelevant). -/
def textResponse (status : Nat) (body : String) : HttpResponse :=
  { status := status, contentType := none, bodyText := body,
    bodyJson := .error () }

/-- A response declared as JSON whose body fails to parse
(`res.json()` rejects). -/
def malformedJsonResponse (status : Nat) : HttpResponse :=
  { status := status, contentType := some "application/json",
    bodyText := "", bodyJson := .error () }

/-! ## Shared helper lemmas -/

theorem isEmpty_false_of_ne (c : String) (h : c ≠ "") : c.isEmpty = false := by
  cases he : c.isEmpty
  · rfl
  · exact absurd ((String.isEmpty_iff c).mp he) h

theorem jsTruthyStr_of_ne (c : String) (h : c ≠ "") :
    jsTruthyStr (some c) = true := by
  simp [jsTruthyStr, isEmpty_false_of_ne c h]

theorem strIncludes_json_json :
    strIncludes "application/json" "application/json" = true := by decide

theorem apiRequest_const (cfg : Option String) (path : String)
    (opts : RequestOptions) (s : Storage) (r : HttpResponse) :
    apiRequest cfg path opts (constFetch r) (some s) =
      (processResponse r, some s) := rfl

theorem processResponse_jsonResponse (status : Nat) (v : JsValue) :
    processResponse (jsonResponse status v) =
      if responseOk (jsonResponse status v) then .ok v
      else .error (.httpError status v (failureMessage v status)) := by
  simp [processResponse, responseData, jsonResponse, strIncludes_json_json]

theorem processResponse_error_of_bad (r : HttpResponse)
    (hBad : responseOk r = false) : ∃ e, processResponse r = .error e := by
  unfold processResponse
  cases hd : responseData r with
  | error e => exact ⟨e, rfl⟩
  | ok v => exact ⟨_, by rw [hBad]; rfl⟩

theorem login_of_processError (cfg : Option String) (email password : String)
    (s : Storage) (r : HttpResponse) (e : JsError)
    (he : processResponse r = .error e) :
    login cfg email password (constFetch r) (some s) = (.error e, some s) := by
  unfold login
  rw [apiRequest_const, he]

theorem login_ok_token (cfg : Option String) (email password t : String)
    (s : Storage) (fields : List (String × JsValue))
    (ht : JsValue.getField (.jobj fields) "token" = some (.jstr t))
    (hne : t ≠ "") :
    login cfg email password (constFetch (jsonResponse 200 (.jobj fields)))
        (some s) = (.ok true, some { s with token := some t }) := by
  unfold login
  rw [apiRequest_const, processResponse_jsonResponse]
  have hok : responseOk (jsonResponse 200 (.jobj fields)) = true := rfl
  rw [hok]
  simp only [JsValue.truthy, if_true, ht, jsTruthyOpt, Option.getD, JsValue.toStr,
    jsTruthyStr_of_ne t hne]
  simp [setToken, JsValue.truthy, String.isEmpty_iff, hne]

theorem login_false_noToken (cfg : Option String) (email password : String)
    (s : Storage) (fields : List (String × JsValue))
    (h : JsValue.getField (.jobj fields) "token" = none) :
    login cfg email password (constFetch (jsonResponse 200 (.jobj fields)))
        (some s) = (.ok false, some s) := by
  unfold login
  rw [apiRequest_const, processResponse_jsonResponse]
  have hok : responseOk (jsonResponse 200 (.jobj fields)) = true := rfl
  rw [hok]
  simp [JsValue.truthy, h, jsTruthyOpt]

theorem getHeader_setHeader_self (hs : List (String × String)) (n v : String) :
    getHeader (setHeader hs n v) n = some v := by
  unfold getHeader setHeader
  rw [List.find?_append]
  have h1 : (hs.filter fun p => lowerName p.1 != lowerName n).find?
      (fun p => lowerName p.1 == lowerName n) = none := by
    rw [List.find?_eq_none]
    intro x hx
    have hmem := List.of_mem_filter hx
    simp only [bne_iff_ne, ne_eq] at hmem
    simp [hmem]
  rw [h1]
  simp [List.find?]

theorem getHeader_setHeader_other (hs : List (String × String)) (n m v : String)
    (hnm : lowerName n ≠ lowerName m)
    (h : ∀ p ∈ hs, lowerName p.1 ≠ lowerName m) :
    getHeader (setHeader hs n v) m = none := by
  unfold getHeader setHeader
  rw [List.find?_append]
  have h1 : (hs.filter fun p => lowerName p.1 != lowerName n).find?
      (fun p => lowerName p.1 == lowerName m) = none := by
    rw [List.find?_eq_none]
    intro x hx
    have hmem := h x (List.mem_of_mem_filter hx)
    simp [hmem]
  have hne : (lowerName n == lowerName m) = false := by
    simp [hnm]
  have h2 : ([(n, v)].find? fun p => lowerName p.1 == lowerName m) = none := by
    simp [List.find?, hne]
  rw [h1, h2]
  rfl

/-! ## Claim theorems -/

/-- Claim C7: for every credential value `c` and every prior store
state, `TokenStore.set(c)` followed by `TokenStore.get()` returns `c`,
and `set` fully replaces any prior value. -/
theorem c7_token_roundtrip (c : String) (s : Storage) :
    (setToken c (some s)).bind getToken = .ok (some c) ∧
    setToken c (some s) = .ok (some { token := some c }) := by
  cases s
  exact ⟨rfl, rfl⟩

/-- Claim C8: for every prior state of the store, after
`TokenStore.clear()` a `get()` returns absent, and `clear` is
idempotent (a second `clear()` is a no-op). -/
theorem c8_clear_idempotent (s : Storage) :
    (clearToken (some s)).bind getToken = .ok none ∧
    (clearToken (some s)).bind clearToken = clearToken (some s) := by
  cases s
  exact ⟨rfl, rfl⟩

/-- Claim C9 (amended): when the persistence layer is available,
`get`, `set` and `clear` are total and never fail; when the layer is
missing or unavailable, each of them raises an error that propagates to
the caller, rather than behaving as if no token were stored. -/
theorem c9_storage_availability (s : Storage) (c : String) :
    getToken (some s) = .ok s.token ∧
    setToken c (some s) = .ok (some { s with token := some c }) ∧
    clearToken (some s) = .ok (some { s with token := none }) ∧
    getToken none = .error .storageUnavailable ∧
    setToken c none = .error .storageUnavailable ∧
    clearToken none = .error .storageUnavailable :=
  ⟨rfl, rfl, rfl, rfl, rfl, rfl⟩

/-- Claim C9 counterexample: with the persistence layer missing, a
`get()` does not return "no token": it raises an error (and so do `set`
and `clear`). -/
theorem c9_counterexample :
    getToken none = .error .storageUnavailable ∧
    getToken none ≠ .ok none ∧
    setToken "c" none = .error .storageUnavailable ∧
    clearToken none = .error .storageUnavailable :=
  ⟨rfl, fun h => Except.noConfusion h, rfl, rfl⟩

/-- Claim C10: `apiRequest` never modifies the token store: for every
configuration, request descriptor, fetch behaviour and storage state,
the storage state after the call (whether it returns data or throws)
equals the state before it. -/
theorem c10_apiRequest_frame (cfg : Option String) (path : String)
    (opts : RequestOptions) (fetch : BuiltRequest → FetchResult)
    (env : StorageEnv) :
    (apiRequest cfg path opts fetch env).2 = env := by
  rcases hb : apiRequestBuilt cfg path opts env with _ | req
  · simp [apiRequest, hb]
  · rcases hf : fetch req with _ | r <;> simp [apiRequest, hb, hf]

/-- Claim C3 (amended): provided the caller's own headers contain no
Authorization entry, the request built by `apiRequest` carries
`Authorization: Bearer <c>` exactly when a non-empty credential `c` is
stored; when no credential, or the empty-string credential, is stored,
the request has no Authorization header at all. -/
theorem c3_auth_header (cfg : Option String) (path : String)
    (opts : RequestOptions) (s : Storage)
    (hNoAuth : ∀ p ∈ opts.headers, lowerName p.1 ≠ "authorization") :
    (∀ c, s.token = some c → c ≠ "" →
      builtAuthHeader cfg path opts (some s) = some (some ("Bearer " ++ c))) ∧
    (s.token = some "" → builtAuthHeader cfg path opts (some s) = some none) ∧
    (s.token = none → builtAuthHeader cfg path opts (some s) = some none) := by
  have hlow : lowerName "Authorization" = "authorization" := by decide
  have hct : lowerName "Content-Type" ≠ lowerName "Authorization" := by decide
  have hNoAuth2 : ∀ p ∈ opts.headers, lowerName p.1 ≠ lowerName "Authorization" := by
    intro p hp
    rw [hlow]
    exact hNoAuth p hp
  refine ⟨?_, ?_, ?_⟩
  · intro c hc hne
    simp only [builtAuthHeader, apiRequestBuilt, getToken, Option.map, buildRequest, hc,
      jsTruthyStr_of_ne c hne, if_true]
    rw [getHeader_setHeader_self]
    rfl
  · intro hc
    simp only [builtAuthHeader, apiRequestBuilt, getToken, Option.map, buildRequest, hc]
    show some (getHeader (setHeader opts.headers "Content-Type" "application/json")
      "Authorization") = some none
    rw [getHeader_setHeader_other _ _ _ _ hct hNoAuth2]
  · intro hc
    simp only [builtAuthHeader, apiRequestBuilt, getToken, Option.map, buildRequest, hc]
    show some (getHeader (setHeader opts.headers "Content-Type" "application/json")
      "Authorization") = some none
    rw [getHeader_setHeader_other _ _ _ _ hct hNoAuth2]

/-- Claim C3 witness: with the credential `tok` stored and no caller
headers, the built request carries `Authorization: Bearer tok`. -/
theorem c3_auth_header_witness :
    builtAuthHeader none "/x" {} (some { token := some "tok" }) =
      some (some ("Bearer " ++ "tok")) := by
  have h := c3_auth_header none "/x" {} { token := some "tok" } (by simp)
  exact h.1 "tok" rfl (by decide)

/-- Claim C3 counterexample: storing the empty-string credential leaves
the store non-empty (`get()` returns it), yet the built request has no
Authorization header, refuting "header present iff a credential is
currently stored". -/
theorem c3_counterexample :
    getToken (some { token := some "" }) = .ok (some "") ∧
    builtAuthHeader none "/x" {} (some { token := some "" }) = some none :=
  ⟨rfl, rfl⟩

/-- Claim C5 (amended): the guard around the protected route renders
its children unchanged exactly when a non-empty credential is stored;
when no credential, or the empty-string credential, is stored it never
renders the protected content and instead replaces the location with
`/login`, recording the requested path as the navigation origin. -/
theorem c5_route_guard (pathname : String) (s : Storage) :
    (∀ c, s.token = some c → c ≠ "" →
      RequireAuth (some s) pathname = .ok .render) ∧
    (s.token = none →
      RequireAuth (some s) pathname = .ok (.redirect "/login" true pathname)) ∧
    (s.token = some "" →
      RequireAuth (some s) pathname = .ok (.redirect "/login" true pathname)) := by
  refine ⟨?_, ?_, ?_⟩
  · intro c hc hne
    simp [RequireAuth, getToken, hc, jsTruthyStr_of_ne c hne]
  · intro hc
    simp [RequireAuth, getToken, hc, jsTruthyStr]
  · intro hc
    rw [RequireAuth, getToken, hc]
    rfl

/-- Claim C5 witness: with the credential `abc` stored, evaluating the
guard at `/admin` renders the protected content with no redirect. -/
theorem c5_route_guard_witness :
    RequireAuth (some { token := some "abc" }) "/admin" = .ok .render :=
  (c5_route_guard "/admin" { token := some "abc" }).1 "abc" rfl (by decide)

/-- Claim C5 counterexample: with the empty-string credential stored
(`get()` returns it, so a credential is present), the guard does not
render the protected content: it redirects to `/login`. -/
theorem c5_counterexample :
    getToken (some { token := some "" }) = .ok (some "") ∧
    RequireAuth (some { token := some "" }) "/admin" =
      .ok (.redirect "/login" true "/admin") ∧
    RequireAuth (some { token := some "" }) "/admin" ≠ .ok .render :=
  ⟨rfl, rfl, fun h => GuardResult.noConfusion (Except.ok.inj h)⟩

/-- Claim C4: a login whose request resolves to a Success payload with
a non-empty token field `t` persists `t` (a subsequent `get()` returns
`t`) and returns `true`; a Success payload lacking a token field makes
login return `false` and leaves the store unchanged. -/
theorem c4_login_token (cfg : Option String) (email password t : String)
    (s : Storage) (fields fields2 : List (String × JsValue))
    (ht : JsValue.getField (.jobj fields) "token" = some (.jstr t))
    (hne : t ≠ "")
    (h2 : JsValue.getField (.jobj fields2) "token" = none) :
    login cfg email password (constFetch (jsonResponse 200 (.jobj fields)))
        (some s) = (.ok true, some { s with token := some t }) ∧
    getToken (some { s with token := some t }) = .ok (some t) ∧
    login cfg email password (constFetch (jsonResponse 200 (.jobj fields2)))
        (some s) = (.ok false, some s) := by
  exact ⟨login_ok_token cfg email password t s fields ht hne, rfl,
    login_false_noToken cfg email password s fields2 h2⟩

/-- Claim C4 witness: a Success payload `{token: "abc"}` logs in
(returns `true`, stores `abc`); a Success payload `{}` returns `false`
and leaves the store untouched. -/
theorem c4_login_token_witness :
    login none "e" "p"
        (constFetch (jsonResponse 200 (.jobj [("token", .jstr "abc")])))
        (some { token := none }) = (.ok true, some { token := some "abc" }) ∧
    login none "e" "p" (constFetch (jsonResponse 200 (.jobj [])))
        (some { token := none }) = (.ok false, some { token := none }) := by
  have h := c4_login_token none "e" "p" "abc" { token := none }
    [("token", .jstr "abc")] [] rfl (by decide) rfl
  exact ⟨h.1, h.2.2⟩

/-- Claim C6: after a login attempt that resolves `true`, navigation
goes to the recorded origin path when one was recorded (recorded paths
are location pathnames, hence non-empty), else to `/admin`; in
particular, being redirected from `/admin` (which records `/admin` as
origin) and then logging in successfully navigates back to `/admin`. -/
theorem c6_login_navigation (cfg : Option String) (email password t : String)
    (s : Storage) (fields : List (String × JsValue))
    (ht : JsValue.getField (.jobj fields) "token" = some (.jstr t))
    (hne : t ≠ "") :
    (∀ p : String, p ≠ "" → loginRedirectFrom (some p) = p) ∧
    loginRedirectFrom none = "/admin" ∧
    RequireAuth (some { token := none }) "/admin" =
      .ok (.redirect "/login" true "/admin") ∧
    loginPageOnSubmit cfg email password
        (constFetch (jsonResponse 200 (.jobj fields))) (some s)
        (some "/admin") =
      (.navigate "/admin", some { s with token := some t }) := by
  refine ⟨?_, rfl, rfl, ?_⟩
  · intro p hp
    simp [loginRedirectFrom, isEmpty_false_of_ne p hp]
  · unfold loginPageOnSubmit
    rw [login_ok_token cfg email password t s fields ht hne]
    rfl

/-- Claim C6 witness: redirected from `/admin` with origin recorded,
a successful login (payload `{token: "tkn"}`) navigates back to
`/admin`. -/
theorem c6_login_navigation_witness :
    loginPageOnSubmit none "e" "p"
        (constFetch (jsonResponse 200 (.jobj [("token", .jstr "tkn")])))
        (some { token := none }) (some "/admin") =
      (.navigate "/admin", some { token := some "tkn" }) := by
  have h := c6_login_navigation none "e" "p" "tkn" { token := none }
    [("token", .jstr "tkn")] rfl (by decide)
  exact h.2.2.2

/-- Claim C1 (amended): a response whose status is outside the success
range never yields a Success.  When the body parse succeeds, the thrown
Failure carries the status code, the parsed payload, and a message
equal to the string coercion of the payload's `message` field when the
payload and that field are truthy (for a string field: non-empty), else
the generic `Request failed <status>`.  (When the JSON body parse
fails, the outcome is the thrown parse error instead, which carries no
status code.) -/
theorem c1_failure_outcome (cfg : Option String) (path : String)
    (opts : RequestOptions) (s : Storage) (r : HttpResponse)
    (hBad : responseOk r = false) :
    (∀ v, (apiRequest cfg path opts (constFetch r) (some s)).1 ≠ .ok v) ∧
    (∀ v, responseData r = .ok v →
      (apiRequest cfg path opts (constFetch r) (some s)).1 =
        .error (.httpError r.status v (failureMessage v r.status))) ∧
    (∀ v m, v.truthy = true → v.getField "message" = some m →
      m.truthy = true → failureMessage v r.status = m.toStr) ∧
    (∀ v, jsTruthyOpt (if v.truthy then v.getField "message" else none) = false →
      failureMessage v r.status = "Request failed " ++ toString r.status) := by
  refine ⟨?_, ?_, ?_, ?_⟩
  · intro v
    rw [apiRequest_const]
    unfold processResponse
    cases hd : responseData r with
    | error e => exact fun h => Except.noConfusion h
    | ok w =>
      rw [hBad]
      exact fun h => Except.noConfusion h
  · intro v hv
    rw [apiRequest_const]
    unfold processResponse
    rw [hv, hBad]
    rfl
  · intro v m hvt hm hmt
    unfold failureMessage
    rw [hvt]
    simp [hm, hmt]
  · intro v hfalsy
    unfold failureMessage
    cases hmf : (if v.truthy then v.getField "message" else none) with
    | none => rfl
    | some m =>
      rw [hmf] at hfalsy
      simp only [jsTruthyOpt] at hfalsy
      simp [hfalsy]

/-- Claim C1 witness: status 404 with payload `{message: "no"}` yields
the thrown Failure carrying 404, the payload, and the payload's
message. -/
theorem c1_failure_outcome_witness :
    (apiRequest none "/x" {}
        (constFetch (jsonResponse 404 (.jobj [("message", .jstr "no")])))
        (some { token := none })).1 =
      .error (.httpError 404 (.jobj [("message", .jstr "no")]) "no") := by
  have h := c1_failure_outcome none "/x" {} { token := none }
    (jsonResponse 404 (.jobj [("message", .jstr "no")])) rfl
  exact h.2.1 _ rfl

/-- Claim C1 counterexample: status 500 with payload `{message: ""}`
(a present `message` field) produces the generic `Request failed 500`,
not the payload's message; and status 500 with a malformed JSON body
produces a thrown parse error that carries no status code at all. -/
theorem c1_counterexample :
    (apiRequest none "/x" {}
        (constFetch (jsonResponse 500 (.jobj [("message", .jstr "")])))
        (some { token := none })).1 =
      .error (.httpError 500 (.jobj [("message", .jstr "")])
        "Request failed 500") ∧
    "Request failed 500" ≠ "" ∧
    (apiRequest none "/x" {} (constFetch (malformedJsonResponse 500))
        (some { token := none })).1 = .error .jsonParseError :=
  ⟨rfl, by decide, rfl⟩

/-- Claim C2 (amended): a login whose request outcome is a Failure
(non-success response status) does not return `false`: the thrown error
propagates out of `login` (so the login page shows `Login failed`, not
`Invalid credentials`), and nothing is persisted.  `login` returns
`false` only for a Success payload without a truthy token field. -/
theorem c2_login_failure (cfg : Option String) (email password : String)
    (s : Storage) (r : HttpResponse) (fromState : Option String)
    (hBad : responseOk r = false) :
    (∃ e, (login cfg email password (constFetch r) (some s)).1 = .error e) ∧
    (∀ b, (login cfg email password (constFetch r) (some s)).1 ≠ .ok b) ∧
    (login cfg email password (constFetch r) (some s)).2 = some s ∧
    (loginPageOnSubmit cfg email password (constFetch r) (some s)
      fromState).1 = .loginFailed := by
  obtain ⟨e, he⟩ := processResponse_error_of_bad r hBad
  have hl := login_of_processError cfg email password s r e he
  refine ⟨⟨e, by rw [hl]⟩, ?_, by rw [hl], ?_⟩
  · intro b
    rw [hl]
    exact fun h => Except.noConfusion h
  · unfold loginPageOnSubmit
    rw [hl]

/-- Claim C2 witness: a 503 text response makes the login attempt
propagate a thrown error, leave the store unchanged, and surface as
`Login failed`. -/
theorem c2_login_failure_witness :
    (login none "a" "p" (constFetch (textResponse 503 "Service Unavailable"))
        (some { token := none })).2 = some { token := none } ∧
    (loginPageOnSubmit none "a" "p"
        (constFetch (textResponse 503 "Service Unavailable"))
        (some { token := none }) none).1 = .loginFailed := by
  have h := c2_login_failure none "a" "p" { token := none }
    (textResponse 503 "Service Unavailable") none rfl
  exact ⟨h.2.2.1, h.2.2.2⟩

/-- Claim C2 counterexample: a 401 response with payload
`{message: "bad"}` makes `login` propagate the thrown error carrying
status 401 — it does not return `false` — and the login page shows
`Login failed`, not `Invalid credentials`. -/
theorem c2_counterexample :
    login none "a" "p"
        (constFetch (jsonResponse 401 (.jobj [("message", .jstr "bad")])))
        (some { token := none }) =
      (.error (.httpError 401 (.jobj [("message", .jstr "bad")]) "bad"),
        some { token := none }) ∧
    (login none "a" "p"
        (constFetch (jsonResponse 401 (.jobj [("message", .jstr "bad")])))
        (some { token := none })).1 ≠ .ok false ∧
    (loginPageOnSubmit none "a" "p"
        (constFetch (jsonResponse 401 (.jobj [("message", .jstr "bad")])))
        (some { token := none }) none).1 = .loginFailed ∧
    LoginUiOutcome.loginFailed ≠ LoginUiOutcome.invalidCredentials :=
  ⟨rfl, fun h => Except.noConfusion h, rfl,
    fun h => LoginUiOutcome.noConfusion h⟩

end VividApp

